import Mathlib

/-!
Verification of the markitdown batch-orchestration core.

Shallow embedding of the Python sources under
`packages/markitdown/src/markitdown/`:

- `_conversion_quality.py` : `ConversionQuality`, warnings, formatting loss
- `_document_metadata.py`  : `DocumentMetadata` (fields used by the cache)
- `_base_converter.py`     : `DocumentConverterResult`
- `_cache.py`              : `CacheEntry`, `ConversionCache.get/put/has`
- `_batch.py`              : `BatchItemStatus`, `BatchItemResult`,
                             `BatchConversionResult`, `convert_batch`
- `_token_estimator.py`    : `FileCategory`, `FileTokenEstimate`,
                             `estimate_file_tokens`

Modelling conventions:
- Python `float` quantities (confidence scores, percentages) are modelled
  as rationals; the arithmetic performed by the embedded code on them is
  exact division/multiplication, mirroring the source formulas.
- Python dictionaries produced by `to_dict`/consumed by `from_dict` are
  modelled by the structures themselves (`to_dict`/`from_dict` are inverse
  field-for-field copies in the source).
- Python enum members are modelled as inductive constructors with their
  `value` strings.
- The filesystem is a pair of partial maps: source files (path to byte
  content) and cache files (cache path to stored data).  A missing source
  file makes `open` raise `OSError`; a stored cache file is either a valid
  entry or malformed — reading it raises one of the kinds such a read can
  produce (`OSError`, `json.JSONDecodeError`, `KeyError`, `TypeError`, or
  `UnicodeDecodeError` when the file's bytes are not valid UTF-8; the last
  is a `ValueError` subclass and is *not* in `get`'s `except` tuple).
- `datetime` metadata fields are modelled by their ISO string serialization.
-/

namespace Markitdown

/-- Severity levels for conversion warnings (`WarningSeverity` in
`_conversion_quality.py`). -/
inductive WarningSeverity
  | INFO
  | LOW
  | MEDIUM
  | HIGH
deriving DecidableEq, Repr

/-- `ConversionWarning` from `_conversion_quality.py`.  `details` is an
opaque payload; the only detail dictionary the batch layer builds is a list
of failed file paths, so it is modelled as an optional list of strings. -/
structure ConversionWarning where
  message : String
  severity : WarningSeverity := WarningSeverity.LOW
  formatting_type : Option String := none
  element_count : Option Nat := none
  details : Option (List String) := none
deriving DecidableEq, Repr

/-- Values stored in the `metrics` dictionary of `ConversionQuality`
(the batch layer stores integers, booleans and a converter-usage
histogram). -/
inductive MetricValue
  | ofNat (n : Nat)
  | ofBool (b : Bool)
  | ofHist (h : List (String × Nat))
deriving DecidableEq, Repr

/-- Insert-or-update on an association list, mirroring Python dictionary
assignment `d[k] = v` (existing key updated in place, new key appended). -/
def assocSet {α : Type} (l : List (String × α)) (k : String) (v : α) :
    List (String × α) :=
  if l.any (fun p => p.1 == k) then
    l.map (fun p => if p.1 == k then (k, v) else p)
  else
    l ++ [(k, v)]

/-- Dictionary lookup with default, mirroring Python `d.get(k, d0)`. -/
def assocGetD {α : Type} (l : List (String × α)) (k : String) (d0 : α) : α :=
  match l.lookup k with
  | some v => v
  | none => d0

/-- `ConversionQuality` from `_conversion_quality.py`.  Formatting-loss
types are identified by their enum `value` strings.  The source field
named `is_` + `partial` is rendered here as `incomplete` (same `Bool`
content, default `False`). -/
structure ConversionQuality where
  confidence : ℚ := 1
  warnings : List ConversionWarning := []
  formatting_loss : List String := []
  metrics : List (String × MetricValue) := []
  converter_used : Option String := none
  optional_features_used : List (String × Bool) := []
  incomplete : Bool := false
  completion_percentage : Option ℚ := none
deriving DecidableEq, Repr

/-- `ConversionQuality.add_warning`: append a warning; additionally track
the formatting type when provided and not already recorded. -/
def ConversionQuality.add_warning (q : ConversionQuality) (message : String)
    (severity : WarningSeverity) (formatting_type : Option String)
    (element_count : Option Nat) (details : Option (List String)) :
    ConversionQuality :=
  let w : ConversionWarning :=
    { message := message, severity := severity,
      formatting_type := formatting_type, element_count := element_count,
      details := details }
  let q1 := { q with warnings := q.warnings ++ [w] }
  match formatting_type with
  | some ft =>
      if ft ∈ q1.formatting_loss then q1
      else { q1 with formatting_loss := q1.formatting_loss ++ [ft] }
  | none => q1

/-- `ConversionQuality.add_formatting_loss`: record a lost formatting type
unless already recorded. -/
def ConversionQuality.add_formatting_loss (q : ConversionQuality)
    (loss : String) : ConversionQuality :=
  if loss ∈ q.formatting_loss then q
  else { q with formatting_loss := q.formatting_loss ++ [loss] }

/-- `ConversionQuality.set_metric`: `self.metrics[key] = value`. -/
def ConversionQuality.set_metric (q : ConversionQuality) (key : String)
    (value : MetricValue) : ConversionQuality :=
  { q with metrics := assocSet q.metrics key value }

/-- `DocumentMetadata` from `_document_metadata.py` (fields only; dates are
modelled by their ISO serialization strings, `custom` by a string map). -/
structure DocumentMetadata where
  title : Option String := none
  author : Option String := none
  date_created : Option String := none
  date_modified : Option String := none
  language : Option String := none
  page_count : Option Nat := none
  word_count : Option Nat := none
  character_count : Option Nat := none
  description : Option String := none
  keywords : Option (List String) := none
  custom : List (String × String) := []
deriving DecidableEq, Repr

/-- `DocumentMetadata.is_empty`: all fields empty or `None`. -/
def DocumentMetadata.is_empty (m : DocumentMetadata) : Bool :=
  m.title == none && m.author == none && m.date_created == none &&
  m.date_modified == none && m.language == none && m.page_count == none &&
  m.word_count == none && m.character_count == none &&
  m.description == none &&
  (m.keywords == none || m.keywords == some []) && m.custom.isEmpty

/-- `DocumentConverterResult` from `_base_converter.py`.  The private
`_quality` / `_metadata` attributes are the fields `quality0` /
`metadata0`. -/
structure DocumentConverterResult where
  markdown : String
  title : Option String := none
  quality0 : Option ConversionQuality := none
  metadata0 : Option DocumentMetadata := none
deriving DecidableEq, Repr

/-- The `quality` property of `DocumentConverterResult`: returns the stored
quality, or a default (confidence 1.0) object when none was provided. -/
def DocumentConverterResult.qualityProp (r : DocumentConverterResult) :
    ConversionQuality :=
  match r.quality0 with
  | some q => q
  | none => {}

/-- `BatchItemStatus` from `_batch.py`, lines 38-45.  The enum has exactly
these five members in the source. -/
inductive BatchItemStatus
  | SUCCESS
  | FAILED
  | SKIPPED
  | UNSUPPORTED
  | CACHED
deriving DecidableEq, Repr

/-- The `value` strings of the `BatchItemStatus` enum members. -/
def BatchItemStatus.value : BatchItemStatus → String
  | BatchItemStatus.SUCCESS => "success"
  | BatchItemStatus.FAILED => "failed"
  | BatchItemStatus.SKIPPED => "skipped"
  | BatchItemStatus.UNSUPPORTED => "unsupported"
  | BatchItemStatus.CACHED => "cached"

/-- `BatchItemResult` from `_batch.py`: one outcome per source path. -/
structure BatchItemResult where
  source_path : String
  status : BatchItemStatus
  result : Option DocumentConverterResult := none
  error : Option String := none
  error_type : Option String := none
deriving DecidableEq, Repr

/-- The `markdown` property of `BatchItemResult`. -/
def BatchItemResult.markdown (it : BatchItemResult) : Option String :=
  match it.result with
  | some r => some r.markdown
  | none => none

/-- The `quality` property of `BatchItemResult`: the result's quality when
a result payload is present, `None` otherwise. -/
def BatchItemResult.quality (it : BatchItemResult) :
    Option ConversionQuality :=
  match it.result with
  | some r => some r.qualityProp
  | none => none

/-- `BatchConversionResult` from `_batch.py`. -/
structure BatchConversionResult where
  items : List BatchItemResult := []
  source_directory : Option String := none
deriving DecidableEq, Repr

/-- `total_count`: total number of files processed. -/
def BatchConversionResult.total_count (b : BatchConversionResult) : Nat :=
  b.items.length

/-- Predicate for the statuses counted as successful by the source
(`SUCCESS` or `CACHED`). -/
def isSuccessfulStatus (it : BatchItemResult) : Bool :=
  it.status == BatchItemStatus.SUCCESS || it.status == BatchItemStatus.CACHED

/-- `success_count`: number of items with status `SUCCESS` or `CACHED`. -/
def BatchConversionResult.success_count (b : BatchConversionResult) : Nat :=
  b.items.countP isSuccessfulStatus

/-- `cached_count`. -/
def BatchConversionResult.cached_count (b : BatchConversionResult) : Nat :=
  b.items.countP (fun it => it.status == BatchItemStatus.CACHED)

/-- `failed_count`. -/
def BatchConversionResult.failed_count (b : BatchConversionResult) : Nat :=
  b.items.countP (fun it => it.status == BatchItemStatus.FAILED)

/-- `skipped_count`. -/
def BatchConversionResult.skipped_count (b : BatchConversionResult) : Nat :=
  b.items.countP (fun it => it.status == BatchItemStatus.SKIPPED)

/-- `unsupported_count`. -/
def BatchConversionResult.unsupported_count (b : BatchConversionResult) :
    Nat :=
  b.items.countP (fun it => it.status == BatchItemStatus.UNSUPPORTED)

/-- `successful_items`: all items with status `SUCCESS` or `CACHED`. -/
def BatchConversionResult.successful_items (b : BatchConversionResult) :
    List BatchItemResult :=
  b.items.filter isSuccessfulStatus

/-- `failed_items`. -/
def BatchConversionResult.failed_items (b : BatchConversionResult) :
    List BatchItemResult :=
  b.items.filter (fun it => it.status == BatchItemStatus.FAILED)

/-- `completion_percentage`: 100.0 for an empty batch, otherwise
`success_count / total_count * 100`. -/
def BatchConversionResult.completion_percentage (b : BatchConversionResult) :
    ℚ :=
  if b.total_count = 0 then 100
  else ((b.success_count : ℚ) / (b.total_count : ℚ)) * 100

/-- Deduplicating accumulator used to model building up the set of
formatting losses (`all_formatting_losses` in `overall_quality`). -/
def dedupAppend (acc : List String) (x : String) : List String :=
  if x ∈ acc then acc else acc ++ [x]

/-- `overall_quality` from `_batch.py`, lines 154-224: the aggregated
quality record of a batch.  The Python `set` of formatting losses is
modelled as a deduplicated list in first-encounter order (the claims about
it are order-insensitive). -/
def BatchConversionResult.overall_quality (b : BatchConversionResult) :
    ConversionQuality :=
  let quality0 : ConversionQuality := {}
  if b.total_count = 0 then quality0
  else
    let successful := b.successful_items
    let quality1 :=
      if successful.length ≠ 0 then
        let total_confidence : ℚ :=
          ((successful.filterMap BatchItemResult.quality).map
            ConversionQuality.confidence).sum
        { quality0 with
            confidence := total_confidence / (successful.length : ℚ) }
      else { quality0 with confidence := 0 }
    let quality2 :=
      quality1.set_metric "total_files" (MetricValue.ofNat b.total_count)
    let quality3 :=
      quality2.set_metric "successful_files"
        (MetricValue.ofNat b.success_count)
    let quality4 :=
      quality3.set_metric "failed_files" (MetricValue.ofNat b.failed_count)
    let quality5 :=
      quality4.set_metric "skipped_files" (MetricValue.ofNat b.skipped_count)
    let quality6 :=
      quality5.set_metric "unsupported_files"
        (MetricValue.ofNat b.unsupported_count)
    let all_formatting_losses : List String :=
      (((successful.filterMap BatchItemResult.quality).map
          ConversionQuality.formatting_loss).flatten).foldl dedupAppend []
    let quality7 :=
      all_formatting_losses.foldl ConversionQuality.add_formatting_loss
        quality6
    let converters_used : List (String × Nat) :=
      successful.foldl
        (fun h it =>
          match it.quality with
          | some q =>
              match q.converter_used with
              | some c =>
                  if c == "" then h
                  else assocSet h c (assocGetD h c 0 + 1)
              | none => h
          | none => h)
        []
    let quality8 :=
      quality7.set_metric "converters_used" (MetricValue.ofHist converters_used)
    let quality9 :=
      if b.success_count < b.total_count then
        { quality8 with
            incomplete := true,
            completion_percentage := some b.completion_percentage }
      else quality8
    let quality10 :=
      if 0 < b.failed_count then
        quality9.add_warning
          (toString b.failed_count ++ " file(s) failed to convert")
          WarningSeverity.HIGH none (some b.failed_count)
          (some ((b.failed_items.map BatchItemResult.source_path).take 10))
      else quality9
    let quality11 :=
      if 0 < b.unsupported_count then
        quality10.add_warning
          (toString b.unsupported_count ++ " file(s) had unsupported formats")
          WarningSeverity.MEDIUM none (some b.unsupported_count) none
      else quality10
    { quality11 with converter_used := some "BatchConverter" }

/-! ### Cache (`_cache.py`) -/

/-- Exception kinds a cache operation can raise: the four kinds named by
the `except` clauses of `ConversionCache.get`
(`OSError, json.JSONDecodeError, KeyError, TypeError`, `_cache.py` line
221), and `UnicodeDecodeError`, raised by `json.load`'s internal `read()`
when the cache file opened with `encoding="utf-8"` (line 210) holds bytes
that are not valid UTF-8 — a `ValueError` subclass that is in neither
`except` tuple. -/
inductive PyErr
  | osError
  | jsonDecodeError
  | keyError
  | typeError
  | unicodeDecodeError
deriving DecidableEq, Repr

/-- The exception kinds caught by `get`'s
`except (OSError, json.JSONDecodeError, KeyError, TypeError)` clause
(`_cache.py` line 221).  `UnicodeDecodeError` is not among them. -/
def caughtByGetExcept : PyErr → Bool
  | PyErr.osError => true
  | PyErr.jsonDecodeError => true
  | PyErr.keyError => true
  | PyErr.typeError => true
  | PyErr.unicodeDecodeError => false

/-- The exception kinds caught by `put`'s `except (OSError, TypeError)`
clause (`_cache.py` line 291). -/
def caughtByPutExcept : PyErr → Bool
  | PyErr.osError => true
  | PyErr.typeError => true
  | _ => false

/-- `CacheEntry` from `_cache.py`: the serialized conversion result stored
under the content digest.  The `quality_dict` / `metadata_dict` blobs are
modelled by the structures they serialize. -/
structure CacheEntry where
  file_hash : String
  markdown : String
  title : Option String
  quality_dict : Option ConversionQuality
  metadata_dict : Option DocumentMetadata := none
deriving DecidableEq, Repr

/-- What a stored cache file holds: a valid entry, or a malformed file
whose read raises the given exception (bytes that are not valid UTF-8
raise `UnicodeDecodeError`; invalid JSON raises `json.JSONDecodeError`;
a JSON value missing the `file_hash` key raises `KeyError`; a JSON value
of the wrong shape raises `TypeError`; an I/O error raises `OSError`). -/
inductive CacheFileData
  | valid (entry : CacheEntry)
  | malformed (err : PyErr)
deriving DecidableEq, Repr

/-- Filesystem state visible to the cache: source files (path to byte
content; a missing path makes `open` raise `OSError`) and the cache
directory (cache path to stored file).  The read-only permission bit the
source toggles around writes is not part of the functional model. -/
structure CacheFS where
  sourceFiles : String → Option (List Nat)
  cacheFiles : String → Option CacheFileData

/-- Pointwise update of a partial map (file creation/deletion). -/
def fsUpdate {α : Type} (f : String → Option α) (k : String)
    (v : Option α) : String → Option α :=
  fun k2 => if k2 = k then v else f k2

/-- `ConversionCache._get_cache_path`: two-level sharding, first two hex
characters of the digest as the subdirectory, `<digest>.json` inside. -/
def cachePathOf (file_hash : String) : String :=
  file_hash.take 2 ++ "/" ++ file_hash ++ ".json"

/-- `ConversionCache.compute_file_hash`: SHA-256 of the file's byte
content.  The digest function is a parameter `hash` (the claims hold for
every digest function); a missing file raises `OSError`. -/
def compute_file_hash (hash : List Nat → String) (fs : CacheFS)
    (file_path : String) : Except PyErr String :=
  match fs.sourceFiles file_path with
  | none => Except.error PyErr.osError
  | some bytes => Except.ok (hash bytes)

namespace ConversionCache

/-- The `try` body of `ConversionCache.get`: compute the digest, look the
entry up under the derived path, re-verify the stored digest.  Reading a
malformed stored file raises its exception. -/
def getEx (hash : List Nat → String) (fs : CacheFS) (file_path : String) :
    Except PyErr (Option CacheEntry) :=
  match compute_file_hash hash fs file_path with
  | Except.error e => Except.error e
  | Except.ok current_hash =>
      match fs.cacheFiles (cachePathOf current_hash) with
      | none => Except.ok none
      | some (CacheFileData.malformed e) => Except.error e
      | some (CacheFileData.valid entry) =>
          if entry.file_hash ≠ current_hash then Except.ok none
          else Except.ok (some entry)

/-- `ConversionCache.get`: the `try` body with
`except (OSError, json.JSONDecodeError, KeyError, TypeError)` turning an
error of a caught kind into a cache miss; an error of an uncaught kind
(`UnicodeDecodeError` from a non-UTF-8 cache file) propagates to the
caller. -/
def get (hash : List Nat → String) (fs : CacheFS) (file_path : String) :
    Except PyErr (Option CacheEntry) :=
  match getEx hash fs file_path with
  | Except.ok r => Except.ok r
  | Except.error e =>
      if caughtByGetExcept e then Except.ok none else Except.error e

/-- `ConversionCache.has`: `get(file_path) is not None`; an exception
raised by `get` propagates through `has`. -/
def has (hash : List Nat → String) (fs : CacheFS) (file_path : String) :
    Except PyErr Bool :=
  match get hash fs file_path with
  | Except.ok r => Except.ok r.isSome
  | Except.error e => Except.error e

/-- Failure kinds of the write step of `put` (`open` raising `OSError`,
`json.dump` raising `TypeError` on non-serializable data).  Within the
embedded data model — finite trees of strings and numbers, with no
circular references and no unencodable text — the write step raises no
other kind, so its failures are exactly the kinds `put`'s `except`
clause catches. -/
inductive PutWriteErr
  | osError
  | typeError
deriving DecidableEq, Repr

/-- The `PyErr` a write failure surfaces as. -/
def PutWriteErr.toPyErr : PutWriteErr → PyErr
  | PutWriteErr.osError => PyErr.osError
  | PutWriteErr.typeError => PyErr.typeError

/-- Failure oracle for the fallible steps of `ConversionCache.put`:
whether `mkdir` raises, whether the chmod+unlink of a pre-existing entry
raises (caught by the inner `try`), and whether the write itself raises
(`OSError` from `open`, or `TypeError` from `json.dump`). -/
structure PutOracle where
  mkdirFails : Bool := false
  unlinkFails : Bool := false
  writeFails : Option PutWriteErr := none
deriving DecidableEq, Repr

/-- The `try` body of `ConversionCache.put`.  An `error` result carries
the exception together with the filesystem state at the raise point (side
effects already performed persist). -/
def putEx (hash : List Nat → String) (o : PutOracle) (fs : CacheFS)
    (file_path : String) (result : DocumentConverterResult) :
    Except (PyErr × CacheFS) CacheFS :=
  match compute_file_hash hash fs file_path with
  | Except.error e => Except.error (e, fs)
  | Except.ok file_hash =>
      let quality_dict := result.quality0
      let metadata_dict :=
        match result.metadata0 with
        | some m => if m.is_empty then none else some m
        | none => none
      let entry : CacheEntry :=
        { file_hash := file_hash, markdown := result.markdown,
          title := result.title, quality_dict := quality_dict,
          metadata_dict := metadata_dict }
      let cache_path := cachePathOf file_hash
      if o.mkdirFails then Except.error (PyErr.osError, fs)
      else
        let fs1 :=
          if (fs.cacheFiles cache_path).isSome then
            if o.unlinkFails then fs
            else { fs with cacheFiles := fsUpdate fs.cacheFiles cache_path none }
          else fs
        match o.writeFails with
        | some e => Except.error (e.toPyErr, fs1)
        | none =>
            Except.ok
              { fs1 with
                  cacheFiles :=
                    fsUpdate fs1.cacheFiles cache_path
                      (some (CacheFileData.valid entry)) }

/-- `ConversionCache.put`: the `try` body with `except (OSError,
TypeError): pass` — a failed write leaves whatever state the body reached
and returns normally.  Every kind the body can raise (`OSError` from
hashing or `mkdir`, `OSError`/`TypeError` from the write step) is caught,
which the claim-C4 theorem proves from `putEx`. -/
def put (hash : List Nat → String) (o : PutOracle) (fs : CacheFS)
    (file_path : String) (result : DocumentConverterResult) : CacheFS :=
  match putEx hash o fs file_path result with
  | Except.ok fs2 => fs2
  | Except.error (_, fs2) => fs2

end ConversionCache

/-- `cache_entry_to_result` from `_cache.py`: rebuild a
`DocumentConverterResult` from a cache entry, tagging the quality record
with the `from_cache` metric. -/
def cache_entry_to_result (entry : CacheEntry) : DocumentConverterResult :=
  let quality :=
    match entry.quality_dict with
    | some q => some (q.set_metric "from_cache" (MetricValue.ofBool true))
    | none => none
  { markdown := entry.markdown, title := entry.title,
    quality0 := quality, metadata0 := entry.metadata_dict }

/-! ### Token estimator (`_token_estimator.py`) -/

/-- `FileCategory` from `_token_estimator.py`. -/
inductive FileCategory
  | IMAGE
  | PPTX
  | NO_LLM
  | CACHED
  | RESUMED
deriving DecidableEq, Repr

/-- The `value` strings of `FileCategory`. -/
def FileCategory.value : FileCategory → String
  | FileCategory.IMAGE => "image"
  | FileCategory.PPTX => "pptx"
  | FileCategory.NO_LLM => "no_llm"
  | FileCategory.CACHED => "cached"
  | FileCategory.RESUMED => "resumed"

/-- `FileTokenEstimate` from `_token_estimator.py`. -/
structure FileTokenEstimate where
  source_path : String
  category : FileCategory
  input_tokens : Nat := 0
  output_tokens : Nat := 0
  image_count : Nat := 0
  file_size_bytes : Nat := 0
  skip_reason : Option String := none
deriving DecidableEq, Repr

/-- `total_tokens = input_tokens + output_tokens`. -/
def FileTokenEstimate.total_tokens (e : FileTokenEstimate) : Nat :=
  e.input_tokens + e.output_tokens

/-- Token-count constants from `_token_estimator.py`. -/
def DEFAULT_PROMPT_TOKENS : Nat := 10

/-- Estimated output tokens for an image description. -/
def DEFAULT_OUTPUT_TOKENS : Nat := 150

/-- High-detail tokens per 512x512 tile. -/
def TOKENS_PER_TILE : Nat := 170

/-- Base tokens for any image. -/
def BASE_IMAGE_TOKENS : Nat := 85

/-- Image extensions that use the LLM. -/
def IMAGE_EXTENSIONS : List String := [".jpg", ".jpeg", ".png"]

/-- PowerPoint extensions that may use the LLM. -/
def PPTX_EXTENSIONS : List String := [".pptx"]

/-- The final path component (`Path(p).name`): everything after the last
slash. -/
def pathName (p : String) : String :=
  String.mk (p.toList.foldl
    (fun acc c => if c = '/' then [] else acc ++ [c]) [])

/-- `Path(p).suffix`: the extension of the final component — the segment
from the last dot, empty when the dot is absent, leading, or trailing. -/
def pathSuffix (p : String) : String :=
  let cs := (pathName p).toList
  match cs.reverse.findIdx? (fun c => c = '.') with
  | none => ""
  | some j =>
      if j = 0 then ""
      else if j = cs.length - 1 then ""
      else String.mk ('.' :: (cs.reverse.take j).reverse)

/-- `os.path.getsize`: byte size of a source file; missing file raises
`OSError`. -/
def getsize (fs : CacheFS) (p : String) : Except PyErr Nat :=
  match fs.sourceFiles p with
  | none => Except.error PyErr.osError
  | some bytes => Except.ok bytes.length

/-- `estimate_file_tokens` from `_token_estimator.py`, lines 340-435.
The numeric heuristics `_estimate_image_tokens` and
`_estimate_pptx_image_count` evaluate floating-point formulas
(`math.sqrt`, `math.log2`) over the file size; they are abstracted as the
parameters `imageTok` and `pptxCount` (the claims under verification are
independent of their values).  `cacheEnabled` models `cache is not None`;
the cache check is wrapped in `try/except Exception` in the source, so
an exception raised by `has` means proceeding with estimation. -/
def estimate_file_tokens (hash : List Nat → String) (fs : CacheFS)
    (imageTok : String → Nat) (pptxCount : String → Nat)
    (cacheEnabled : Bool) (is_resumed : Bool) (file_path : String) :
    FileTokenEstimate :=
  let extension := (pathSuffix file_path).toLower
  let file_size :=
    match getsize fs file_path with
    | Except.ok n => n
    | Except.error _ => 0
  if is_resumed then
    { source_path := file_path, category := FileCategory.RESUMED,
      file_size_bytes := file_size,
      skip_reason := some "Output file already exists" }
  else if cacheEnabled &&
      (match ConversionCache.has hash fs file_path with
       | Except.ok b => b
       | Except.error _ => false) then
    { source_path := file_path, category := FileCategory.CACHED,
      file_size_bytes := file_size,
      skip_reason := some "File is cached" }
  else if extension ∈ IMAGE_EXTENSIONS then
    let image_tokens := imageTok file_path
    { source_path := file_path, category := FileCategory.IMAGE,
      input_tokens := image_tokens + DEFAULT_PROMPT_TOKENS,
      output_tokens := DEFAULT_OUTPUT_TOKENS,
      image_count := 1, file_size_bytes := file_size }
  else if extension ∈ PPTX_EXTENSIONS then
    let image_count := pptxCount file_path
    if 0 < image_count then
      let avg_image_tokens := BASE_IMAGE_TOKENS + TOKENS_PER_TILE * 2
      { source_path := file_path, category := FileCategory.PPTX,
        input_tokens := (avg_image_tokens + DEFAULT_PROMPT_TOKENS) * image_count,
        output_tokens := DEFAULT_OUTPUT_TOKENS * image_count,
        image_count := image_count, file_size_bytes := file_size }
    else
      { source_path := file_path, category := FileCategory.NO_LLM,
        file_size_bytes := file_size,
        skip_reason := some "PowerPoint has no estimated images" }
  else
    { source_path := file_path, category := FileCategory.NO_LLM,
      file_size_bytes := file_size,
      skip_reason := some "File type does not use LLM" }

/-! ### Batch conversion (`_batch.py`, `convert_batch`) -/

/-- Outcome of the injected converter collaborator
(`markitdown.convert(source)`): a result, a raised
`UnsupportedFormatException`, or any other exception (message and type
name). -/
inductive ConvOutcome
  | ok (result : DocumentConverterResult)
  | unsupported (msg : String)
  | exn (msg : String) (ty : String)
deriving DecidableEq, Repr

/-- The `RuntimeError` message raised by `convert_batch` in fail-fast
mode. -/
def failMsg (it : BatchItemResult) : String :=
  "Conversion failed for " ++ it.source_path ++ ": " ++
    (match it.error with
     | some e => e
     | none => "None")

/-- `convert_single` (the inner closure of `convert_batch`): cache lookup
for local files, then conversion, then cache store.  The source wraps the
cache lookup in `try/except Exception: pass`, so any exception `get`
raises (including an uncaught-in-`get` `UnicodeDecodeError`) means
proceeding with conversion; the cache store is wrapped likewise, and
`put` already swallows its failures internally.  `cacheEnabled` models
`cache is not None`; `source_path.is_file()` is presence in
`fs.sourceFiles`. -/
def convert_single (hash : List Nat → String) (o : ConversionCache.PutOracle)
    (conv : String → ConvOutcome) (cacheEnabled : Bool) (fs : CacheFS)
    (source : String) : BatchItemResult × CacheFS :=
  let isFile := (fs.sourceFiles source).isSome
  let cacheHit : Option CacheEntry :=
    if cacheEnabled && isFile then
      match ConversionCache.get hash fs source with
      | Except.ok r => r
      | Except.error _ => none
    else none
  match cacheHit with
  | some entry =>
      ({ source_path := source, status := BatchItemStatus.CACHED,
         result := some (cache_entry_to_result entry) }, fs)
  | none =>
      match conv source with
      | ConvOutcome.ok r =>
          let fs2 :=
            if cacheEnabled && isFile then
              ConversionCache.put hash o fs source r
            else fs
          ({ source_path := source, status := BatchItemStatus.SUCCESS,
             result := some r }, fs2)
      | ConvOutcome.unsupported m =>
          ({ source_path := source, status := BatchItemStatus.UNSUPPORTED,
             error := some m,
             error_type := some "UnsupportedFormatException" }, fs)
      | ConvOutcome.exn m ty =>
          ({ source_path := source, status := BatchItemStatus.FAILED,
             error := some m, error_type := some ty }, fs)

/-- The collection loop shared by both branches of `convert_batch`:
process the given occurrence sequence of sources, appending each item; on
a `FAILED` item with `skip_errors` false, raise `RuntimeError` (the
accumulated list is discarded — the exception propagates to the caller).
Cache writes thread through the state in processing order. -/
def convertBatchLoop (hash : List Nat → String)
    (o : ConversionCache.PutOracle) (conv : String → ConvOutcome)
    (cacheEnabled : Bool) (skip_errors : Bool) :
    List String → CacheFS → List BatchItemResult →
    Except String (List BatchItemResult)
  | [], _fs, acc => Except.ok acc.reverse
  | s :: rest, fs, acc =>
      let pr := convert_single hash o conv cacheEnabled fs s
      if skip_errors = false ∧ pr.1.status = BatchItemStatus.FAILED then
        Except.error (failMsg pr.1)
      else
        convertBatchLoop hash o conv cacheEnabled skip_errors rest pr.2
          (pr.1 :: acc)

/-- `convert_batch` with `max_workers == 1` (sequential branch,
`_batch.py` lines 403-413): items are processed in input order. -/
def convert_batch_seq (hash : List Nat → String)
    (o : ConversionCache.PutOracle) (conv : String → ConvOutcome)
    (cacheEnabled : Bool) (skip_errors : Bool) (fs : CacheFS)
    (sources : List String) : Except String (List BatchItemResult) :=
  convertBatchLoop hash o conv cacheEnabled skip_errors sources fs []

/-- `convert_batch` with `max_workers ≠ 1` (parallel branch, `_batch.py`
lines 414-431): all sources are submitted to the pool, and
`as_completed` yields them in an arbitrary completion order, modelled by
the index sequence `order`; results are appended in completion order, and
shared cache effects are linearized in that order.  On a `FAILED` item
with `skip_errors` false the remaining futures are cancelled and
`RuntimeError` is raised. -/
def convert_batch_par (hash : List Nat → String)
    (o : ConversionCache.PutOracle) (conv : String → ConvOutcome)
    (cacheEnabled : Bool) (skip_errors : Bool) (fs : CacheFS)
    (sources : List String) (order : List (Fin sources.length)) :
    Except String (List BatchItemResult) :=
  convertBatchLoop hash o conv cacheEnabled skip_errors
    (order.map (fun i => sources.get i)) fs []

/-! ### Helper lemmas -/

/-- `set_metric` does not change the confidence score. -/
@[simp] theorem confidence_set_metric (q : ConversionQuality) (k : String)
    (v : MetricValue) : (q.set_metric k v).confidence = q.confidence := rfl

/-- `set_metric` does not change the formatting-loss list. -/
@[simp] theorem formatting_loss_set_metric (q : ConversionQuality)
    (k : String) (v : MetricValue) :
    (q.set_metric k v).formatting_loss = q.formatting_loss := rfl

/-- `set_metric` does not change the partial-conversion flag. -/
@[simp] theorem incomplete_set_metric (q : ConversionQuality) (k : String)
    (v : MetricValue) : (q.set_metric k v).incomplete = q.incomplete := rfl

/-- `add_formatting_loss` behaves as the deduplicating append on the
formatting-loss list. -/
theorem formatting_loss_add_formatting_loss (q : ConversionQuality)
    (x : String) :
    (q.add_formatting_loss x).formatting_loss =
      dedupAppend q.formatting_loss x := by
  unfold ConversionQuality.add_formatting_loss dedupAppend
  split <;> rfl

/-- `add_formatting_loss` does not change the confidence score. -/
@[simp] theorem confidence_add_formatting_loss (q : ConversionQuality)
    (x : String) : (q.add_formatting_loss x).confidence = q.confidence := by
  unfold ConversionQuality.add_formatting_loss
  split <;> rfl

/-- `add_formatting_loss` does not change the partial-conversion flag. -/
@[simp] theorem incomplete_add_formatting_loss (q : ConversionQuality)
    (x : String) : (q.add_formatting_loss x).incomplete = q.incomplete := by
  unfold ConversionQuality.add_formatting_loss
  split <;> rfl

/-- `add_warning` does not change the confidence score. -/
@[simp] theorem confidence_add_warning (q : ConversionQuality) (m : String)
    (s : WarningSeverity) (ft : Option String) (ec : Option Nat)
    (d : Option (List String)) :
    (q.add_warning m s ft ec d).confidence = q.confidence := by
  cases ft with
  | none => rfl
  | some ft0 =>
      simp only [ConversionQuality.add_warning]
      split <;> rfl

/-- `add_warning` does not change the partial-conversion flag. -/
@[simp] theorem incomplete_add_warning (q : ConversionQuality) (m : String)
    (s : WarningSeverity) (ft : Option String) (ec : Option Nat)
    (d : Option (List String)) :
    (q.add_warning m s ft ec d).incomplete = q.incomplete := by
  cases ft with
  | none => rfl
  | some ft0 =>
      simp only [ConversionQuality.add_warning]
      split <;> rfl

/-- `add_warning` with no formatting type does not change the
formatting-loss list. -/
@[simp] theorem formatting_loss_add_warning_none (q : ConversionQuality)
    (m : String) (s : WarningSeverity) (ec : Option Nat)
    (d : Option (List String)) :
    (q.add_warning m s none ec d).formatting_loss = q.formatting_loss := rfl

/-- Membership in a deduplicating append. -/
theorem mem_dedupAppend (acc : List String) (a x : String) :
    x ∈ dedupAppend acc a ↔ x ∈ acc ∨ x = a := by
  unfold dedupAppend
  split
  · constructor
    · exact fun h => Or.inl h
    · rintro (h | rfl)
      · exact h
      · assumption
  · simp

/-- Membership after folding the deduplicating append over a list. -/
theorem mem_foldl_dedupAppend (l : List String) (acc : List String)
    (x : String) : x ∈ l.foldl dedupAppend acc ↔ x ∈ acc ∨ x ∈ l := by
  induction l generalizing acc with
  | nil => simp
  | cons a rest ih =>
      simp only [List.foldl_cons, ih, mem_dedupAppend, List.mem_cons]
      tauto

/-- Folding `add_formatting_loss` preserves the confidence score. -/
theorem confidence_foldl_add_formatting_loss (l : List String)
    (q : ConversionQuality) :
    (l.foldl ConversionQuality.add_formatting_loss q).confidence =
      q.confidence := by
  induction l generalizing q with
  | nil => rfl
  | cons a rest ih => simp [List.foldl_cons, ih]

/-- Folding `add_formatting_loss` preserves the partial-conversion flag. -/
theorem incomplete_foldl_add_formatting_loss (l : List String)
    (q : ConversionQuality) :
    (l.foldl ConversionQuality.add_formatting_loss q).incomplete =
      q.incomplete := by
  induction l generalizing q with
  | nil => rfl
  | cons a rest ih => simp [List.foldl_cons, ih]

/-- Membership in the formatting-loss list after folding
`add_formatting_loss`. -/
theorem mem_foldl_add_formatting_loss (l : List String)
    (q : ConversionQuality) (x : String) :
    x ∈ (l.foldl ConversionQuality.add_formatting_loss q).formatting_loss ↔
      x ∈ q.formatting_loss ∨ x ∈ l := by
  induction l generalizing q with
  | nil => simp
  | cons a rest ih =>
      simp only [List.foldl_cons, ih, formatting_loss_add_formatting_loss,
        mem_dedupAppend, List.mem_cons]
      tauto

/-! ### Claim C1 -/

/-- C1: the per-item status set of the batch module (`BatchItemStatus`,
`_batch.py` lines 38-45) consists exactly of the values `success`,
`failed`, `skipped`, `unsupported` and `cached`; in particular no member
has the value `resumed`, so the orchestrator cannot record an item with a
terminal `RESUMED` status — the `BatchItemStatus.RESUMED` accesses in
`__main__.py` (lines 674 and 807) name a member that does not exist. -/
theorem batch_status_has_no_resumed_member :
    (∀ s : BatchItemStatus, s.value ≠ "resumed") ∧
      (∀ s : BatchItemStatus,
        s.value ∈ ["success", "failed", "skipped", "unsupported", "cached"]) := by
  constructor
  · intro s
    cases s <;> simp [BatchItemStatus.value]
  · intro s
    cases s <;> simp [BatchItemStatus.value]

/-! ### Claim C2 -/

/-- C2: no member of the per-item status set has the value
`filtered_low_quality`, so no batch item can be reclassified to a
`FILTERED_LOW_QUALITY` status — the `BatchItemStatus.FILTERED_LOW_QUALITY`
accesses in `__main__.py` (lines 678, 690 and 696) and the
`filtered_low_quality_count` field read at line 1006 name members that do
not exist in `_batch.py`; every item of every batch result carries one of
the five existing statuses. -/
theorem batch_status_has_no_filtered_member :
    (∀ s : BatchItemStatus, s.value ≠ "filtered_low_quality") ∧
      (∀ (b : BatchConversionResult), ∀ it ∈ b.items,
        it.status = BatchItemStatus.SUCCESS ∨
        it.status = BatchItemStatus.FAILED ∨
        it.status = BatchItemStatus.SKIPPED ∨
        it.status = BatchItemStatus.UNSUPPORTED ∨
        it.status = BatchItemStatus.CACHED) := by
  constructor
  · intro s
    cases s <;> simp [BatchItemStatus.value]
  · intro b it _
    cases h : it.status <;> simp

/-! ### Claim C6 -/

/-- Concrete three-item batch: items 1 and 3 succeed, item 2 is
unsupported. -/
def exBatch3 : BatchConversionResult :=
  { items :=
      [{ source_path := "a", status := BatchItemStatus.SUCCESS,
         result := some { markdown := "m1" } },
       { source_path := "b", status := BatchItemStatus.UNSUPPORTED,
         error := some "unsupported format" },
       { source_path := "c", status := BatchItemStatus.SUCCESS,
         result := some { markdown := "m2" } }] }

/-- C6: `success_count` counts exactly the items whose status is
successful (`SUCCESS` or `CACHED` — the statuses `successful_items`
selects), `completion_percentage` is `success_count / total_count * 100`
for a non-empty batch, and on the concrete three-item batch with one
unsupported item the counts are 2 / 1 / 3 and the completion percentage
is 200/3 ≈ 66.7. -/
theorem success_count_and_completion_percentage :
    (∀ b : BatchConversionResult,
        b.success_count = b.successful_items.length) ∧
    (∀ b : BatchConversionResult, b.total_count ≠ 0 →
        b.completion_percentage =
          ((b.success_count : ℚ) / (b.total_count : ℚ)) * 100) ∧
    (exBatch3.success_count = 2 ∧ exBatch3.unsupported_count = 1 ∧
      exBatch3.total_count = 3 ∧
      exBatch3.completion_percentage = 200 / 3 ∧
      |exBatch3.completion_percentage - 667 / 10| < 1 / 10) := by
  refine ⟨?_, ?_, ?_⟩
  · intro b
    exact List.countP_eq_length_filter _ _
  · intro b hb
    unfold BatchConversionResult.completion_percentage
    rw [if_neg hb]
  · have hc : exBatch3.success_count = 2 := by decide
    have ht : exBatch3.total_count = 3 := by decide
    have h : exBatch3.completion_percentage = 200 / 3 := by
      unfold BatchConversionResult.completion_percentage
      rw [if_neg (by decide), hc, ht]
      norm_num
    refine ⟨hc, by decide, ht, h, ?_⟩
    rw [h]
    rw [abs_of_neg (by norm_num)]
    norm_num

/-- Witness for C6: the completion-percentage formula applied to the
concrete three-item batch. -/
theorem success_count_and_completion_percentage_witness :
    exBatch3.completion_percentage =
      ((exBatch3.success_count : ℚ) / (exBatch3.total_count : ℚ)) * 100 :=
  success_count_and_completion_percentage.2.1 exBatch3 (by decide)

/-! ### Claim C10 -/

/-- C10: for a batch result with no items, `completion_percentage` is
100 (the source returns `100.0` when `total_count == 0` instead of
dividing by zero). -/
theorem completion_percentage_of_empty_batch :
    ∀ b : BatchConversionResult, b.items = [] →
      b.completion_percentage = 100 := by
  intro b hb
  unfold BatchConversionResult.completion_percentage
  rw [if_pos]
  unfold BatchConversionResult.total_count
  rw [hb]
  rfl

/-- Witness for C10: the empty batch result reports 100 percent
completion. -/
theorem completion_percentage_of_empty_batch_witness :
    ({ items := [] } : BatchConversionResult).completion_percentage = 100 :=
  completion_percentage_of_empty_batch { items := [] } rfl

/-! ### Claim C4 -/

/-- The hashing step fails only by `OSError` (the file cannot be
opened). -/
theorem compute_file_hash_error_kind (hash : List Nat → String)
    (fs : CacheFS) (p : String) (e : PyErr)
    (h : compute_file_hash hash fs p = Except.error e) :
    e = PyErr.osError := by
  unfold compute_file_hash at h
  cases hsf : fs.sourceFiles p with
  | none =>
      rw [hsf] at h
      exact (Except.error.injEq _ _).mp h.symm
  | some bytes =>
      rw [hsf] at h
      exact absurd h (by simp)

/-- Every exception the body of `put` can raise is of a kind its
`except (OSError, TypeError)` clause catches. -/
theorem putEx_error_caught (hash : List Nat → String)
    (o : ConversionCache.PutOracle) (fs : CacheFS) (p : String)
    (r : DocumentConverterResult) (e : PyErr) (fs1 : CacheFS)
    (h : ConversionCache.putEx hash o fs p r = Except.error (e, fs1)) :
    caughtByPutExcept e = true := by
  unfold ConversionCache.putEx at h
  cases hcf : compute_file_hash hash fs p with
  | error e2 =>
      rw [hcf] at h
      simp only [Except.error.injEq, Prod.mk.injEq] at h
      rw [← h.1, compute_file_hash_error_kind hash fs p e2 hcf]
      rfl
  | ok h2 =>
      rw [hcf] at h
      cases hmk : o.mkdirFails with
      | true =>
          simp only [hmk, if_true, Except.error.injEq, Prod.mk.injEq] at h
          rw [← h.1]
          rfl
      | false =>
          simp only [hmk, Bool.false_eq_true, if_false] at h
          cases hwf : o.writeFails with
          | none =>
              rw [hwf] at h
              exact absurd h (by simp)
          | some w =>
              rw [hwf] at h
              simp only [Except.error.injEq, Prod.mk.injEq] at h
              rw [← h.1]
              cases w <;> rfl

/-- Digest function used by the concrete cache witnesses. -/
def hashW : List Nat → String := fun bs => "ab" ++ toString bs.length

/-- Filesystem whose cache directory holds a malformed entry for the
digest of `doc.txt` whose read raises `json.JSONDecodeError` (a caught
kind). -/
def fsMalformed : CacheFS :=
  { sourceFiles := fun p => if p = "doc.txt" then some [7] else none,
    cacheFiles := fun cp =>
      if cp = cachePathOf "ab1" then
        some (CacheFileData.malformed PyErr.jsonDecodeError)
      else none }

/-- Filesystem whose cache directory holds, at the digest path for
`doc.txt`, a stored file whose bytes are not valid UTF-8, so reading it
raises `UnicodeDecodeError` — a kind `get`'s `except` tuple does not
catch. -/
def fsUtf8 : CacheFS :=
  { sourceFiles := fun p => if p = "doc.txt" then some [7] else none,
    cacheFiles := fun cp =>
      if cp = cachePathOf "ab1" then
        some (CacheFileData.malformed PyErr.unicodeDecodeError)
      else none }

/-- Counterexample for C4: on this concrete cache store state —  a
malformed stored entry whose bytes are not valid UTF-8 — `Cache.get`
raises `UnicodeDecodeError` instead of reporting a miss, so `get` does
not treat every malformed stored entry as a cache miss and does raise. -/
theorem cache_get_raises_on_malformed_entry_counterexample :
    ConversionCache.get hashW fsUtf8 "doc.txt" =
      Except.error PyErr.unicodeDecodeError := rfl

/-- C4 (as amended): failures of the kinds `get`'s `except` clause
catches — `OSError` opening the source file, and a malformed stored entry
raising `OSError`, `json.JSONDecodeError`, `KeyError` or `TypeError` —
are treated as cache misses, while a raise of an uncaught kind
(`UnicodeDecodeError` from a cache file with invalid UTF-8 bytes)
propagates out of `get`.  Every exception the body of `put` can raise is
of a caught kind and is swallowed, with `put` returning normally in the
state reached at the raise point.  No cache exception aborts a batch
run: when `get` raises, `convert_single` produces the same item outcome
as a run without a cache, because `convert_batch` wraps the cache calls
in catch-all handlers. -/
theorem cache_caught_failures_degrade_to_miss :
    ∀ (hash : List Nat → String) (fs : CacheFS) (p : String),
      (fs.sourceFiles p = none →
        ConversionCache.get hash fs p = Except.ok none) ∧
      (∀ (h2 : String) (e : PyErr), caughtByGetExcept e = true →
          compute_file_hash hash fs p = Except.ok h2 →
          fs.cacheFiles (cachePathOf h2) =
            some (CacheFileData.malformed e) →
          ConversionCache.get hash fs p = Except.ok none) ∧
      (∀ e : PyErr, ConversionCache.getEx hash fs p = Except.error e →
          ConversionCache.get hash fs p =
            if caughtByGetExcept e then Except.ok none
            else Except.error e) ∧
      (∀ (o : ConversionCache.PutOracle) (r : DocumentConverterResult)
          (e : PyErr) (fs1 : CacheFS),
          ConversionCache.putEx hash o fs p r = Except.error (e, fs1) →
          caughtByPutExcept e = true ∧
            ConversionCache.put hash o fs p r = fs1) ∧
      (∀ (o : ConversionCache.PutOracle) (conv : String → ConvOutcome)
          (e : PyErr),
          ConversionCache.get hash fs p = Except.error e →
          (convert_single hash o conv true fs p).1 =
            (convert_single hash o conv false fs p).1) := by
  intro hash fs p
  refine ⟨?_, ?_, ?_, ?_, ?_⟩
  · intro h
    simp [ConversionCache.get, ConversionCache.getEx, compute_file_hash,
      h, caughtByGetExcept]
  · intro h2 e hc hcomp hmal
    simp [ConversionCache.get, ConversionCache.getEx, hcomp, hmal, hc]
  · intro e h
    simp [ConversionCache.get, h]
  · intro o r e fs1 h
    refine ⟨putEx_error_caught hash o fs p r e fs1 h, ?_⟩
    simp [ConversionCache.put, h]
  · intro o conv e hget
    unfold convert_single
    simp only [hget, Bool.true_and, Bool.false_and, Bool.false_eq_true,
      if_false, ite_self]
    cases hcv : conv p <;> simp [hcv]

/-- Witness for C4 (as amended): a malformed stored entry of a caught
kind is reported as a cache miss. -/
theorem cache_caught_failures_degrade_to_miss_witness :
    ConversionCache.get hashW fsMalformed "doc.txt" = Except.ok none :=
  (cache_caught_failures_degrade_to_miss hashW fsMalformed "doc.txt").2.1
    "ab1" PyErr.jsonDecodeError rfl rfl rfl

/-! ### Claim C5 -/

/-- C5: storing a conversion result and reading it back on unmodified
file content returns an entry whose markdown equals the stored markdown,
for every digest function, filesystem state, path and result (the write
uses the failure-free oracle: the put itself succeeds). -/
theorem cache_put_get_roundtrip :
    ∀ (hash : List Nat → String) (fs : CacheFS) (p : String)
      (r : DocumentConverterResult) (bytes : List Nat),
      fs.sourceFiles p = some bytes →
      ∃ entry,
        ConversionCache.get hash (ConversionCache.put hash {} fs p r) p =
          Except.ok (some entry) ∧ entry.markdown = r.markdown := by
  intro hash fs p r bytes h
  rcases hc : fs.cacheFiles (cachePathOf (hash bytes)) with _ | cfd
  · refine ⟨⟨hash bytes, r.markdown, r.title, r.quality0,
      (match r.metadata0 with
        | some m => if m.is_empty then none else some m
        | none => none)⟩, ?_, rfl⟩
    simp [ConversionCache.put, ConversionCache.putEx, ConversionCache.get,
      ConversionCache.getEx, compute_file_hash, h, hc, fsUpdate]
  · refine ⟨⟨hash bytes, r.markdown, r.title, r.quality0,
      (match r.metadata0 with
        | some m => if m.is_empty then none else some m
        | none => none)⟩, ?_, rfl⟩
    simp [ConversionCache.put, ConversionCache.putEx, ConversionCache.get,
      ConversionCache.getEx, compute_file_hash, h, hc, fsUpdate]

/-- Filesystem with one source file and an empty cache directory. -/
def fsClean : CacheFS :=
  { sourceFiles := fun p => if p = "doc.txt" then some [7] else none,
    cacheFiles := fun _ => none }

/-- A concrete conversion result. -/
def rW : DocumentConverterResult := { markdown := "hello world" }

/-- Witness for C5: the put/get round trip on a concrete file returns the
stored markdown. -/
theorem cache_put_get_roundtrip_witness :
    ∃ entry,
      ConversionCache.get hashW
          (ConversionCache.put hashW {} fsClean "doc.txt" rW) "doc.txt" =
        Except.ok (some entry) ∧ entry.markdown = rW.markdown :=
  cache_put_get_roundtrip hashW fsClean "doc.txt" rW [7] rfl

/-! ### Claim C9 -/

/-- C9: the token estimator classifies a resumed file as `RESUMED` with
zero total tokens regardless of the file's size or the cache state (the
resume check precedes the cache check: the conclusion holds for every
cache state); otherwise, when a cache is supplied and reports a hit, the
file is classified `CACHED` with zero total tokens.  The estimator never
invokes a converter — its inputs are only the filesystem, the cache and
the size heuristics. -/
theorem token_estimate_resumed_and_cached_cost_zero :
    ∀ (hash : List Nat → String) (fs : CacheFS)
      (imageTok pptxCount : String → Nat) (cacheEnabled is_resumed : Bool)
      (p : String),
      (is_resumed = true →
        (estimate_file_tokens hash fs imageTok pptxCount cacheEnabled
            is_resumed p).category = FileCategory.RESUMED ∧
        (estimate_file_tokens hash fs imageTok pptxCount cacheEnabled
            is_resumed p).total_tokens = 0) ∧
      (is_resumed = false → cacheEnabled = true →
        ConversionCache.has hash fs p = Except.ok true →
        (estimate_file_tokens hash fs imageTok pptxCount cacheEnabled
            is_resumed p).category = FileCategory.CACHED ∧
        (estimate_file_tokens hash fs imageTok pptxCount cacheEnabled
            is_resumed p).total_tokens = 0) := by
  intro hash fs imageTok pptxCount cacheEnabled is_resumed p
  constructor
  · intro hres
    subst hres
    constructor <;>
      simp [estimate_file_tokens, FileTokenEstimate.total_tokens]
  · intro hres hen hhit
    subst hres
    subst hen
    constructor <;>
      simp [estimate_file_tokens, FileTokenEstimate.total_tokens, hhit]

/-- Witness for C9: a concrete resumed file (with a large source on disk)
is classified `RESUMED` at zero cost. -/
theorem token_estimate_resumed_and_cached_cost_zero_witness :
    (estimate_file_tokens hashW fsClean (fun _ => 9999) (fun _ => 9999)
        true true "doc.txt").category = FileCategory.RESUMED ∧
    (estimate_file_tokens hashW fsClean (fun _ => 9999) (fun _ => 9999)
        true true "doc.txt").total_tokens = 0 :=
  (token_estimate_resumed_and_cached_cost_zero hashW fsClean
    (fun _ => 9999) (fun _ => 9999) true true "doc.txt").1 rfl

/-! ### Claim C7 -/

/-- The confidence value of one item: the confidence of its quality
record, 0 when the item carries no result payload. -/
def itemConfidence (it : BatchItemResult) : ℚ :=
  match it.quality with
  | some q => q.confidence
  | none => 0

/-- When every item of the list has a result payload, summing the
confidences over the quality records present equals summing the per-item
confidences. -/
theorem sum_confidence_filterMap (l : List BatchItemResult)
    (hl : ∀ it ∈ l, it.result.isSome) :
    ((l.filterMap BatchItemResult.quality).map
        ConversionQuality.confidence).sum =
      (l.map itemConfidence).sum := by
  induction l with
  | nil => rfl
  | cons a rest ih =>
      have ha := hl a (by simp)
      have hrest : ∀ it ∈ rest, it.result.isSome := by
        intro it hit
        exact hl it (by simp [hit])
      rcases hq : a.result with _ | r
      · rw [hq] at ha
        simp at ha
      · simp only [List.filterMap_cons, BatchItemResult.quality, hq,
          List.map_cons, List.sum_cons, List.map_cons, ih hrest,
          itemConfidence]

/-- C7: for every batch with at least one item and at least one
successful item, all of whose successful items carry a result payload
(as all items produced by `convert_batch` with status `SUCCESS` or
`CACHED` do), the aggregated quality record has: confidence equal to the
arithmetic mean of the successful items' confidences; a formatting-loss
set equal to the union of the successful items' formatting-loss sets;
and the partial flag set exactly when `success_count < total_count`. -/
theorem overall_quality_aggregates :
    ∀ b : BatchConversionResult,
      b.items ≠ [] →
      b.successful_items ≠ [] →
      (∀ it ∈ b.successful_items, it.result.isSome) →
      (b.overall_quality.confidence =
        (b.successful_items.map itemConfidence).sum /
          (b.successful_items.length : ℚ)) ∧
      (∀ loss : String,
        loss ∈ b.overall_quality.formatting_loss ↔
          ∃ it ∈ b.successful_items, ∃ q, it.quality = some q ∧
            loss ∈ q.formatting_loss) ∧
      (b.overall_quality.incomplete = true ↔
        b.success_count < b.total_count) := by
  intro b hitems hsucc hres
  have htot : ¬ b.total_count = 0 := by
    unfold BatchConversionResult.total_count
    simpa using hitems
  have hlen : ¬ b.successful_items.length = 0 := by
    simpa using hsucc
  refine ⟨?_, ?_, ?_⟩
  · unfold BatchConversionResult.overall_quality
    rw [if_neg htot]
    simp only [confidence_set_metric, confidence_foldl_add_formatting_loss,
      confidence_add_warning, apply_ite ConversionQuality.confidence,
      ite_self, ne_eq, hlen, not_false_eq_true, if_true]
    rw [sum_confidence_filterMap _ hres]
  · intro loss
    unfold BatchConversionResult.overall_quality
    rw [if_neg htot]
    simp only [formatting_loss_set_metric,
      formatting_loss_add_warning_none,
      apply_ite ConversionQuality.formatting_loss, ite_self,
      ne_eq, hlen, not_false_eq_true, if_true,
      mem_foldl_add_formatting_loss, mem_foldl_dedupAppend,
      List.not_mem_nil, false_or]
    simp only [List.mem_flatten, List.mem_map, List.mem_filterMap]
    constructor
    · rintro ⟨ll, ⟨q, ⟨it, hit, hq⟩, hql⟩, hmem⟩
      exact ⟨it, hit, q, hq, by rw [hql]; exact hmem⟩
    · rintro ⟨it, hit, q, hq, hmem⟩
      exact ⟨q.formatting_loss, ⟨q, ⟨it, hit, hq⟩, rfl⟩, hmem⟩
  · unfold BatchConversionResult.overall_quality
    rw [if_neg htot]
    simp only [incomplete_set_metric, incomplete_foldl_add_formatting_loss,
      incomplete_add_warning, apply_ite ConversionQuality.incomplete,
      ite_self, ne_eq, hlen, not_false_eq_true, if_true]
    by_cases hlt : b.success_count < b.total_count
    · rw [if_pos hlt]
      simpa using hlt
    · rw [if_neg hlt]
      simpa using hlt

/-- Quality record of the first successful item of `exBatchQ`, a concrete
batch with two successful items (confidences 1/2 and 3/4, formatting
losses `table` and `image`) and one failed item. -/
def qA : ConversionQuality :=
  { confidence := 1/2, formatting_loss := ["table"] }

/-- Quality record of the second successful item of `exBatchQ`. -/
def qB : ConversionQuality :=
  { confidence := 3/4, formatting_loss := ["image"] }

/-- The concrete batch itself. -/
def exBatchQ : BatchConversionResult :=
  { items :=
      [{ source_path := "a", status := BatchItemStatus.SUCCESS,
         result := some { markdown := "m1", quality0 := some qA } },
       { source_path := "b", status := BatchItemStatus.CACHED,
         result := some { markdown := "m2", quality0 := some qB } },
       { source_path := "c", status := BatchItemStatus.FAILED,
         error := some "boom", error_type := some "ValueError" }] }

/-- Witness for C7: the aggregated confidence of the concrete batch is
the mean over its successful items. -/
theorem overall_quality_aggregates_witness :
    exBatchQ.overall_quality.confidence =
      (exBatchQ.successful_items.map itemConfidence).sum /
        (exBatchQ.successful_items.length : ℚ) :=
  (overall_quality_aggregates exBatchQ (by decide) (by decide)
    (by decide)).1

/-! ### Claim C8 -/

/-- With no cache supplied, processing one source leaves the filesystem
state unchanged. -/
theorem convert_single_no_cache_state (hash : List Nat → String)
    (o : ConversionCache.PutOracle) (conv : String → ConvOutcome)
    (fs : CacheFS) (s : String) :
    (convert_single hash o conv false fs s).2 = fs := by
  unfold convert_single
  cases hcv : conv s <;> simp [hcv]

/-- With `skip_errors` true and no cache, the collection loop appends one
item per source, in processing order. -/
theorem convertBatchLoop_skip_no_cache (hash : List Nat → String)
    (o : ConversionCache.PutOracle) (conv : String → ConvOutcome)
    (l : List String) :
    ∀ (fs : CacheFS) (acc : List BatchItemResult),
      convertBatchLoop hash o conv false true l fs acc =
        Except.ok (acc.reverse ++
          l.map (fun s => (convert_single hash o conv false fs s).1)) := by
  induction l with
  | nil =>
      intro fs acc
      simp [convertBatchLoop]
  | cons s rest ih =>
      intro fs acc
      unfold convertBatchLoop
      rw [if_neg (by simp)]
      rw [convert_single_no_cache_state]
      rw [ih fs ((convert_single hash o conv false fs s).1 :: acc)]
      simp

/-- C8: with worker width 1 (sequential mode) and `skip_errors` true, the
batch result holds exactly one item per requested source, in input
order; with width greater than 1, for every completion order of the
dispatched units the batch result holds the same multiset of items — one
per source — regardless of that order.  (Stated for runs without a
cache, where each unit's outcome is a function of its source alone.) -/
theorem batch_sequential_order_parallel_set :
    ∀ (hash : List Nat → String) (o : ConversionCache.PutOracle)
      (conv : String → ConvOutcome) (fs : CacheFS) (sources : List String)
      (order : List (Fin sources.length)),
      order.Perm (List.finRange sources.length) →
      (convert_batch_seq hash o conv false true fs sources =
        Except.ok (sources.map
          (fun s => (convert_single hash o conv false fs s).1))) ∧
      (∃ items,
        convert_batch_par hash o conv false true fs sources order =
          Except.ok items ∧
        items.Perm (sources.map
          (fun s => (convert_single hash o conv false fs s).1))) := by
  intro hash o conv fs sources order hperm
  constructor
  · unfold convert_batch_seq
    rw [convertBatchLoop_skip_no_cache]
    simp
  · refine ⟨(order.map (fun i => sources.get i)).map
        (fun s => (convert_single hash o conv false fs s).1), ?_, ?_⟩
    · unfold convert_batch_par
      rw [convertBatchLoop_skip_no_cache]
      simp
    · rw [List.map_map]
      have h2 : sources.map (fun s => (convert_single hash o conv false fs s).1) =
          (List.finRange sources.length).map
            ((fun s => (convert_single hash o conv false fs s).1) ∘ sources.get) := by
        rw [← List.map_map, List.finRange_map_get]
      rw [h2]
      exact hperm.map _

/-- Converter used by the C8 witness: every source converts. -/
def convC8 : String → ConvOutcome := fun s =>
  ConvOutcome.ok { markdown := "md:" ++ s }

/-- Witness for C8: a two-element batch processed in reversed completion
order yields the same multiset of items as the input order. -/
theorem batch_sequential_order_parallel_set_witness :
    convert_batch_seq hashW {} convC8 false true fsClean ["a", "b"] =
      Except.ok (["a", "b"].map
        (fun s => (convert_single hashW {} convC8 false fsClean s).1)) ∧
    ∃ items,
      convert_batch_par hashW {} convC8 false true fsClean ["a", "b"]
          [⟨1, by decide⟩, ⟨0, by decide⟩] =
        Except.ok items ∧
      items.Perm (["a", "b"].map
        (fun s => (convert_single hashW {} convC8 false fsClean s).1)) :=
  batch_sequential_order_parallel_set hashW {} convC8 fsClean ["a", "b"]
    [⟨1, by decide⟩, ⟨0, by decide⟩] (by decide)

/-! ### Claim C3 -/

/-- The converter used by the fail-fast counterexample: `bad` raises, any
other source converts. -/
def convC3 : String → ConvOutcome := fun s =>
  if s = "bad" then ConvOutcome.exn "boom" "ValueError"
  else ConvOutcome.ok { markdown := "converted" }

/-- Counterexample for C3: in fail-fast mode (`skip_errors` false), with
two dispatched units of which `good` completes first with `SUCCESS` and
`bad` then completes with `FAILED`, `convert_batch` raises
`RuntimeError` — the call yields an error, not a Batch Result, so the
already-collected `SUCCESS` outcome of the finished unit `good` is
discarded rather than retained. -/
theorem fail_fast_discards_outcomes_counterexample :
    (convert_single hashW {} convC3 false fsClean "good").1.status =
      BatchItemStatus.SUCCESS ∧
    convert_batch_par hashW {} convC3 false false fsClean ["good", "bad"]
        [⟨0, by decide⟩, ⟨1, by decide⟩] =
      Except.error "Conversion failed for bad: boom" :=
  ⟨rfl, rfl⟩

/-- In fail-fast mode without a cache, the collection loop errors out as
soon as some processed item is `FAILED`. -/
theorem convertBatchLoop_failfast (hash : List Nat → String)
    (o : ConversionCache.PutOracle) (conv : String → ConvOutcome) :
    ∀ (l : List String) (fs : CacheFS) (acc : List BatchItemResult),
      ((l.map (fun s => (convert_single hash o conv false fs s).1)).any
        (fun it => it.status == BatchItemStatus.FAILED)) = true →
      ∃ msg, convertBatchLoop hash o conv false false l fs acc =
        Except.error msg := by
  intro l
  induction l with
  | nil =>
      intro fs acc h
      simp at h
  | cons s rest ih =>
      intro fs acc hany
      unfold convertBatchLoop
      by_cases hf : (convert_single hash o conv false fs s).1.status =
          BatchItemStatus.FAILED
      · rw [if_pos ⟨rfl, hf⟩]
        exact ⟨_, rfl⟩
      · rw [if_neg (fun hc => hf hc.2)]
        rw [convert_single_no_cache_state]
        apply ih fs _
        simp only [List.map_cons, List.any_cons, Bool.or_eq_true,
          beq_iff_eq] at hany
        rcases hany with h | h
        · exact absurd h hf
        · simpa [beq_iff_eq] using h

/-- C3 (as amended): in fail-fast mode, whenever some dispatched unit's
outcome is `FAILED`, `convert_batch` raises `RuntimeError` and returns no
batch result at all — already-collected outcomes are discarded, and units
after the first failure in completion order are cancelled, never
collected.  (Stated for runs without a cache.) -/
theorem fail_fast_raises_and_discards :
    ∀ (hash : List Nat → String) (o : ConversionCache.PutOracle)
      (conv : String → ConvOutcome) (fs : CacheFS) (sources : List String)
      (order : List (Fin sources.length)),
      ((order.map (fun i =>
          (convert_single hash o conv false fs (sources.get i)).1)).any
        (fun it => it.status == BatchItemStatus.FAILED)) = true →
      ∃ msg, convert_batch_par hash o conv false false fs sources order =
        Except.error msg := by
  intro hash o conv fs sources order hany
  unfold convert_batch_par
  apply convertBatchLoop_failfast
  rw [List.map_map]
  exact hany

/-- Witness for C3 (as amended): a one-element fail-fast batch whose only
unit fails yields an error. -/
theorem fail_fast_raises_and_discards_witness :
    ∃ msg,
      convert_batch_par hashW {} convC3 false false fsClean ["bad"]
          [⟨0, by decide⟩] =
        Except.error msg :=
  fail_fast_raises_and_discards hashW {} convC3 fsClean ["bad"]
    [⟨0, by decide⟩] (by decide)

end Markitdown
